import Mathlib

/-!
Verification development for the double-entry ledger service
(`double-rust-ledger`): a shallow embedding of the transaction engine
(`src/handlers/transactions.rs`), the balance calculator
(`src/handlers/balance.rs`), the data model (`src/models.rs`) and the
error classification (`src/errors.rs`), together with theorems settling
the specified properties of the engine.

Monetary amounts in the source are `rust_decimal::Decimal` values; they
are embedded here as exact scaled integers (a mantissa with a decimal
scale).  Database rows are embedded as Lean structures, the SQLite store
as lists of rows, and each handler as an explicit state-passing
function.  Fallible operations return `Except`.
-/

deriving instance DecidableEq for Except

/-- Exact decimal number, mirroring `rust_decimal::Decimal`: the value is
`m / 10 ^ s`.  Arithmetic is exact (no floating point). -/
structure Dec where
  m : Int
  s : Nat
deriving Repr, DecidableEq

/-- `Decimal::ZERO`. -/
def Dec.zero : Dec := ⟨0, 0⟩

/-- Decimal addition: align the scales, add the mantissas (exact, as in
`rust_decimal`). -/
def Dec.add (a b : Dec) : Dec :=
  if a.s ≤ b.s then ⟨a.m * (10 : Int) ^ (b.s - a.s) + b.m, b.s⟩
  else ⟨a.m + b.m * (10 : Int) ^ (a.s - b.s), a.s⟩

/-- Decimal negation. -/
def Dec.neg (a : Dec) : Dec := ⟨-a.m, a.s⟩

/-- Decimal subtraction (align scales, subtract mantissas). -/
def Dec.sub (a b : Dec) : Dec := a.add b.neg

/-- Numeric equality of decimals (`PartialEq` on `rust_decimal::Decimal`
compares values, so `1.00 == 1.0`): cross-multiplied mantissa test. -/
def Dec.eqv (a b : Dec) : Bool :=
  a.m * (10 : Int) ^ b.s == b.m * (10 : Int) ^ a.s

/-- Rational value denoted by a decimal. -/
def Dec.val (a : Dec) : ℚ := (a.m : ℚ) / ((10 : ℚ) ^ a.s)

/-- Digit-string of a natural number (used by `Dec.toStr`). -/
def natDigits (n : Nat) : String := toString n

/-- Rendering of a decimal as text, mirroring `Display` on
`rust_decimal::Decimal`: mantissa digits with a decimal point placed by
the scale, trailing zeros kept (`Decimal::ZERO` renders as "0"). -/
def Dec.toStr (d : Dec) : String :=
  let sign := if d.m < 0 then "-" else ""
  let digits := natDigits d.m.natAbs
  if d.s == 0 then
    sign ++ digits
  else
    let digits :=
      if digits.length ≤ d.s then
        String.mk (List.replicate (d.s + 1 - digits.length) '0') ++ digits
      else digits
    let k := digits.length - d.s
    sign ++ (digits.take k) ++ "." ++ (digits.drop k)

/-- Decimal digit test. -/
def isDigitCh (c : Char) : Bool := '0' ≤ c && c ≤ '9'

/-- Value of a digit list (most significant first). -/
def digitsToNat (cs : List Char) : Nat :=
  cs.foldl (fun a c => a * 10 + (c.toNat - 48)) 0

/-- Split a character list at the first decimal point. -/
def splitDot : List Char → List Char × Option (List Char)
  | [] => ([], none)
  | c :: rest =>
    if c == '.' then ([], some rest)
    else
      let p := splitDot rest
      (c :: p.1, p.2)

/-- Parse of an unsigned decimal literal `digits` or `digits.digits`
(both digit groups non-empty); anything else is a parse error. -/
def parseUnsigned (cs : List Char) : Option Dec :=
  let p := splitDot cs
  match p.2 with
  | none =>
    if decide (p.1 ≠ []) && p.1.all isDigitCh then
      some ⟨(digitsToNat p.1 : Int), 0⟩
    else none
  | some fp =>
    if decide (p.1 ≠ []) && decide (fp ≠ []) && p.1.all isDigitCh && fp.all isDigitCh then
      some ⟨(digitsToNat (p.1 ++ fp) : Int), fp.length⟩
    else none

/-- Model of `str::parse::<Decimal>` (`rust_decimal::Decimal::from_str`)
on the grammar the stored amounts use: an optional sign followed by
digits with at most one decimal point; malformed text is a parse error
(`None`), which the handlers turn into zero via `unwrap_or`. -/
def parseDec (str : String) : Option Dec :=
  match str.data with
  | [] => none
  | c :: rest =>
    if c == '-' then (parseUnsigned rest).map Dec.neg
    else if c == '+' then parseUnsigned rest
    else parseUnsigned (c :: rest)

example : parseDec "0" = some ⟨0, 0⟩ := by decide
example : parseDec "1500.00" = some ⟨150000, 2⟩ := by decide
example : parseDec "abc" = none := by decide
example : parseDec "" = none := by decide
example : Dec.toStr ⟨0, 0⟩ = "0" := by decide
example : Dec.toStr ⟨150000, 2⟩ = "1500.00" := by decide
example : Dec.toStr ⟨-50, 1⟩ = "-5.0" := by decide

/-! ## Data model (`src/models.rs`, `src/schema.rs`) -/

/-- The five account types (`enum AccountType` in `src/models.rs`). -/
inductive AccountType where
  | asset
  | liability
  | equity
  | revenue
  | expense
deriving Repr, DecidableEq

/-- `impl From<String> for AccountType` in `src/models.rs`: the five
lowercase names map to their variants and ANY other string falls through
to `AccountType::Asset`. -/
def accountTypeFromString (str : String) : AccountType :=
  if str = "asset" then .asset
  else if str = "liability" then .liability
  else if str = "equity" then .equity
  else if str = "revenue" then .revenue
  else if str = "expense" then .expense
  else .asset

/-- `impl From<AccountType> for String` in `src/models.rs`. -/
def stringFromAccountType : AccountType → String
  | .asset => "asset"
  | .liability => "liability"
  | .equity => "equity"
  | .revenue => "revenue"
  | .expense => "expense"

/-- Model of the derived serde deserializer for `AccountType` (the
variants carry lowercase renames): exactly the five known strings
deserialize, every other input is a deserialization error. -/
def accountTypeDeserialize (str : String) : Option AccountType :=
  if str = "asset" then some .asset
  else if str = "liability" then some .liability
  else if str = "equity" then some .equity
  else if str = "revenue" then some .revenue
  else if str = "expense" then some .expense
  else none

/-- Row of the `accounts` table. -/
structure AccountRow where
  id : String
  code : String
  name : String
  account_type : String
  parent_id : Option String
  is_active : Bool
  created_at : String
  updated_at : String
deriving Repr, DecidableEq

/-- Row of the `transactions` table. -/
structure TransactionRow where
  id : String
  reference : String
  description : String
  transaction_date : String
  created_at : String
  updated_at : String
deriving Repr, DecidableEq

/-- Row of the `entries` table (amounts are stored as text). -/
structure EntryRow where
  id : String
  transaction_id : String
  account_id : String
  debit_amount : String
  credit_amount : String
  description : Option String
  created_at : String
deriving Repr, DecidableEq

/-- The SQLite store: the three tables as lists of rows. -/
structure DbState where
  accounts : List AccountRow
  transactions : List TransactionRow
  entries : List EntryRow
deriving Repr, DecidableEq

/-- `CreateEntryRequest` (`src/models.rs`): amounts are optional
decimals. -/
structure CreateEntryRequest where
  account_id : String
  debit_amount : Option Dec
  credit_amount : Option Dec
  description : Option String
deriving Repr, DecidableEq

/-- `CreateTransactionRequest` (`src/models.rs`). -/
structure CreateTransactionRequest where
  reference : String
  description : String
  transaction_date : Option String
  entries : List CreateEntryRequest
deriving Repr, DecidableEq

/-- `AccountBalance` (`src/models.rs`). -/
structure AccountBalance where
  account_id : String
  account_code : String
  account_name : String
  account_type : String
  debit_total : Dec
  credit_total : Dec
  balance : Dec
deriving Repr, DecidableEq

/-- `EntryWithAccount` (`src/models.rs`): an entry joined with the code
and name of its account, amounts parsed back to decimals. -/
structure EntryWithAccount where
  id : String
  transaction_id : String
  account_id : String
  account_code : String
  account_name : String
  debit_amount : Dec
  credit_amount : Dec
  description : Option String
  created_at : String
deriving Repr, DecidableEq

/-- `TransactionWithEntries` (`src/models.rs`). -/
structure TransactionWithEntries where
  id : String
  reference : String
  description : String
  transaction_date : String
  created_at : String
  updated_at : String
  entries : List EntryWithAccount
deriving Repr, DecidableEq

/-! ## Errors (`src/errors.rs`) -/

/-- `enum AppError` in `src/errors.rs`. -/
inductive AppError where
  | databaseError (msg : String)
  | validationError (msg : String)
  | notFound (msg : String)
  | badRequest (msg : String)
  | internalServerError (msg : String)
deriving Repr, DecidableEq

/-- Diesel store errors reaching the handlers: either the row-not-found
signal of `first()` or a database-level error with its message. -/
inductive DieselError where
  | notFound
  | databaseError (msg : String)
deriving Repr, DecidableEq

/-- `impl From<DieselError> for AppError` in `src/errors.rs`:
`DieselError::NotFound` becomes `AppError::NotFound("Record not found")`
and every other diesel error becomes a generic
`AppError::DatabaseError`. -/
def appErrorOfDiesel : DieselError → AppError
  | .notFound => .notFound "Record not found"
  | .databaseError msg => .databaseError msg

/-! ## Balance calculator (`src/handlers/balance.rs`) -/

/-- One step of the per-account totals loop in `get_balances` and
`get_account_balance`: each stored amount is parsed and falls back to
`Decimal::ZERO` when it does not parse (`parse().unwrap_or(ZERO)`). -/
def balanceStep (t : Dec × Dec) (e : EntryRow) : Dec × Dec :=
  (t.1.add ((parseDec e.debit_amount).getD Dec.zero),
   t.2.add ((parseDec e.credit_amount).getD Dec.zero))

/-- The per-account balance computation shared verbatim by
`get_balances` and `get_account_balance` in `src/handlers/balance.rs`:
scan the entries of the account, sum debit and credit amounts
independently from zero, then sign the balance by the account type
(the `match account.account_type.as_str()` block). -/
def accountBalanceOf (st : DbState) (account : AccountRow) : AccountBalance :=
  let accountEntries := st.entries.filter (fun e => e.account_id == account.id)
  let totals := accountEntries.foldl balanceStep (Dec.zero, Dec.zero)
  let bal :=
    if account.account_type = "asset" ∨ account.account_type = "expense" then
      totals.1.sub totals.2
    else if account.account_type = "liability" ∨ account.account_type = "equity" ∨
        account.account_type = "revenue" then
      totals.2.sub totals.1
    else
      totals.1.sub totals.2
  { account_id := account.id
    account_code := account.code
    account_name := account.name
    account_type := account.account_type
    debit_total := totals.1
    credit_total := totals.2
    balance := bal }

/-- `get_balances` (`src/handlers/balance.rs`): load all accounts,
optionally filtered by account type, and compute each balance. -/
def getBalances (st : DbState) (accountTypeFilter : Option String) : List AccountBalance :=
  let allAccounts : List AccountRow :=
    match accountTypeFilter with
    | some f => st.accounts.filter (fun a => a.account_type == f)
    | none => st.accounts
  allAccounts.map (accountBalanceOf st)

/-- `get_account_balance` (`src/handlers/balance.rs`): `find(&acc_id)`
with `first()` signals diesel NotFound when the account is missing,
otherwise the balance is computed. -/
def getAccountBalance (st : DbState) (accId : String) : Except AppError AccountBalance :=
  match st.accounts.find? (fun a => a.id == accId) with
  | none => .error (appErrorOfDiesel .notFound)
  | some account => .ok (accountBalanceOf st account)

/-! ## Transaction engine (`src/handlers/transactions.rs`) -/

/-- The structural `validate()` step of `create_transaction`: the
derived `Validate` on `CreateTransactionRequest` checks
`reference` length 1..=50 and `description` length 1..=500 (entry
fields carry no nested validate attribute and are not checked here).
Returns the message of the Validation error, or `none` when the request
shape is valid. -/
def validateStructural (req : CreateTransactionRequest) : Option String :=
  let errs :=
    (if req.reference.length < 1 ∨ req.reference.length > 50 then ["reference"] else []) ++
    (if req.description.length < 1 ∨ req.description.length > 500 then ["description"] else [])
  if errs.isEmpty then none
  else some ("Validation failed: " ++ String.intercalate ", " errs)

/-- The double-entry totals loop of `create_transaction`: fold over the
requested entries, adding each present `debit_amount` to the debit total
and each present `credit_amount` to the credit total, both starting at
`Decimal::ZERO`; an absent amount contributes nothing. -/
def balanceTotals (es : List CreateEntryRequest) : Dec × Dec :=
  es.foldl
    (fun t e =>
      (match e.debit_amount with
       | some d => t.1.add d
       | none => t.1,
       match e.credit_amount with
       | some c => t.2.add c
       | none => t.2))
    (Dec.zero, Dec.zero)

/-- The `NewEntry` row built inside the commit loop of
`create_transaction`: absent amounts become `Decimal::ZERO`, amounts
are stored as their decimal text, and `created_at` is the shared
commit timestamp. -/
def mkEntryRow (transId eid now : String) (e : CreateEntryRequest) : EntryRow :=
  { id := eid
    transaction_id := transId
    account_id := e.account_id
    debit_amount := (e.debit_amount.getD Dec.zero).toStr
    credit_amount := (e.credit_amount.getD Dec.zero).toStr
    description := e.description
    created_at := now }

/-- Modelled from the spec: the `entries` table declares a foreign key
from `account_id` to `accounts` (the migrations DDL is not under `src/`;
`src/schema.rs` declares the join), so inserting an entry whose account
does not exist fails with a database-level foreign-key violation, which
diesel reports as a generic database error, not as `NotFound`. -/
def insertEntryRow (st : DbState) (row : EntryRow) : Except DieselError DbState :=
  if st.accounts.any (fun a => a.id == row.account_id) then
    .ok { st with entries := st.entries ++ [row] }
  else
    .error (.databaseError "FOREIGN KEY constraint failed")

/-- The entry-insert loop of `create_transaction`: each requested entry
gets its own generated id and is inserted in order; the first failing
insert aborts the loop with its diesel error. -/
def insertEntries (transId : String) (entryId : Nat → String) (now : String) :
    DbState → Nat → List CreateEntryRequest → Except DieselError DbState
  | st, _, [] => .ok st
  | st, i, e :: es =>
    match insertEntryRow st (mkEntryRow transId (entryId i) now e) with
    | .error err => .error err
    | .ok st' => insertEntries transId entryId now st' (i + 1) es

/-- The `NewTransaction` row built inside the commit closure of
`create_transaction`: the transaction date defaults to `now`, and both
`created_at` and `updated_at` are the shared commit timestamp. -/
def mkTransactionRow (req : CreateTransactionRequest) (newTransId now : String) :
    TransactionRow :=
  { id := newTransId
    reference := req.reference
    description := req.description
    transaction_date := req.transaction_date.getD now
    created_at := now
    updated_at := now }

/-- The body of the `conn.transaction(...)` closure in
`create_transaction`: stamp one timestamp `now`, insert the transaction
row, insert every entry row, then re-read the inserted transaction by
id.  Diesel rolls the whole unit back when the closure fails, so the
caller keeps the prior state on error. -/
def commitTransaction (st : DbState) (req : CreateTransactionRequest)
    (newTransId : String) (entryId : Nat → String) (now : String) :
    Except DieselError DbState :=
  let st1 : DbState :=
    { st with transactions := st.transactions ++ [mkTransactionRow req newTransId now] }
  match insertEntries newTransId entryId now st1 0 req.entries with
  | .error err => .error err
  | .ok st2 =>
    match st2.transactions.find? (fun t => t.id == newTransId) with
    | none => .error .notFound
    | some _ => .ok st2

/-- The join step of the read-back views: an entry is kept only when an
account row with its `account_id` exists (`inner_join`), and carries the
code and name of that account; stored amounts are parsed back with the
zero fallback. -/
def entryWithAccountOf (e : EntryRow) (a : AccountRow) : EntryWithAccount :=
  { id := e.id
    transaction_id := e.transaction_id
    account_id := e.account_id
    account_code := a.code
    account_name := a.name
    debit_amount := (parseDec e.debit_amount).getD Dec.zero
    credit_amount := (parseDec e.credit_amount).getD Dec.zero
    description := e.description
    created_at := e.created_at }

/-- The joined entry list shared by both read-back views: the entries of
the transaction inner-joined with their accounts. -/
def joinedEntries (st : DbState) (transId : String) : List EntryWithAccount :=
  (st.entries.filter (fun e => e.transaction_id == transId)).filterMap
    (fun e => (st.accounts.find? (fun a => a.id == e.account_id)).map (entryWithAccountOf e))

/-- `get_transaction_with_entries` (`src/handlers/transactions.rs`):
look the transaction up by its reference (`first()` gives diesel
NotFound when absent), then join its entries with their accounts. -/
def getTransactionWithEntries (st : DbState) (refId : String) :
    Except AppError TransactionWithEntries :=
  match st.transactions.find? (fun t => t.reference == refId) with
  | none => .error (appErrorOfDiesel .notFound)
  | some t =>
    .ok
      { id := t.id
        reference := t.reference
        description := t.description
        transaction_date := t.transaction_date
        created_at := t.created_at
        updated_at := t.updated_at
        entries := joinedEntries st t.id }

/-- `get_transaction_with_entries_by_id` (`src/handlers/transactions.rs`):
same view, keyed by transaction id. -/
def getTransactionWithEntriesById (st : DbState) (transId : String) :
    Except AppError TransactionWithEntries :=
  match st.transactions.find? (fun t => t.id == transId) with
  | none => .error (appErrorOfDiesel .notFound)
  | some t =>
    .ok
      { id := t.id
        reference := t.reference
        description := t.description
        transaction_date := t.transaction_date
        created_at := t.created_at
        updated_at := t.updated_at
        entries := joinedEntries st transId }

/-- `create_transaction` (`src/handlers/transactions.rs`).  In source
order: structural `validate()`, the double-entry totals check
(`total_debits != total_credits`), the empty-entry-list check, then the
atomic commit and the read-back by reference.  The generated transaction
id, per-entry ids and the commit timestamp are passed explicitly.  The
returned state is the prior state on every failure before or inside the
rolled-back commit. -/
def createTransaction (st : DbState) (req : CreateTransactionRequest)
    (newTransId : String) (entryId : Nat → String) (now : String) :
    DbState × Except AppError TransactionWithEntries :=
  match validateStructural req with
  | some msg => (st, .error (.validationError msg))
  | none =>
    let totals := balanceTotals req.entries
    if totals.1.eqv totals.2 then
      if req.entries.isEmpty then
        (st, .error (.validationError "Transaction must have at least one entry"))
      else
        match commitTransaction st req newTransId entryId now with
        | .error err => (st, .error (appErrorOfDiesel err))
        | .ok st' =>
          match getTransactionWithEntries st' req.reference with
          | .error e => (st', .error e)
          | .ok v => (st', .ok v)
    else
      (st, .error (.validationError "Total debits must equal total credits"))

/-- `delete_transaction` (`src/handlers/transactions.rs`): delete the
transaction row by id; zero deleted rows yield NotFound.  Modelled from
the spec: the delete cascades to the entries owned by the deleted
transaction (the cascade DDL lives in the migrations, which are not
under `src/`). -/
def deleteTransaction (st : DbState) (transId : String) :
    DbState × Except AppError String :=
  let deletedRows := (st.transactions.filter (fun t => t.id == transId)).length
  if deletedRows == 0 then
    (st, .error (.notFound "Transaction not found"))
  else
    ({ st with
        transactions := st.transactions.filter (fun t => !(t.id == transId))
        entries := st.entries.filter (fun e => !(e.transaction_id == transId)) },
     .ok "Transaction deleted successfully")

/-! ## Spec-side reference definitions (refinement targets)

These definitions follow the words of the specification, to be compared
with the handler definitions above. -/

/-- Sum of the parsed debit amounts of a list of entry rows, starting at
zero (the spec: sums debit amounts independently, exact decimal
accumulation, starting at zero). -/
def specDebitTotal (es : List EntryRow) : Dec :=
  es.foldl (fun d e => d.add ((parseDec e.debit_amount).getD Dec.zero)) Dec.zero

/-- Sum of the parsed credit amounts of a list of entry rows, starting
at zero. -/
def specCreditTotal (es : List EntryRow) : Dec :=
  es.foldl (fun c e => c.add ((parseDec e.credit_amount).getD Dec.zero)) Dec.zero

/-- The sign convention of the spec: Asset and Expense give
debits − credits, Liability, Equity and Revenue give
credits − debits, any unrecognized type falls back to
debits − credits. -/
def specSignedBalance (t : String) (debits credits : Dec) : Dec :=
  if t = "asset" ∨ t = "expense" then debits.sub credits
  else if t = "liability" ∨ t = "equity" ∨ t = "revenue" then credits.sub debits
  else debits.sub credits

/-- The validation pipeline in the order the spec claims: first
structural validation, then the entry-list non-empty check, then the
balance check; the result is the error of the first failing step. -/
def specOrderValidation (req : CreateTransactionRequest) : Option AppError :=
  match validateStructural req with
  | some msg => some (.validationError msg)
  | none =>
    if req.entries.isEmpty then
      some (.validationError "Transaction must have at least one entry")
    else
      let totals := balanceTotals req.entries
      if totals.1.eqv totals.2 then none
      else some (.validationError "Total debits must equal total credits")

/-! ## Concrete fixtures used by the witnesses -/

/-- An asset account. -/
def acctCash : AccountRow :=
  { id := "a1", code := "A001", name := "Cash", account_type := "asset",
    parent_id := none, is_active := true, created_at := "t0", updated_at := "t0" }

/-- A revenue account. -/
def acctSales : AccountRow :=
  { id := "a2", code := "A002", name := "Sales", account_type := "revenue",
    parent_id := none, is_active := true, created_at := "t0", updated_at := "t0" }

/-- An entry row with debit 1500.00 on account `a1`. -/
def rowDr1 : EntryRow :=
  { id := "e1", transaction_id := "tx1", account_id := "a1",
    debit_amount := "1500.00", credit_amount := "0", description := none,
    created_at := "t0" }

/-- An entry row with credit 500.00 on account `a1`. -/
def rowCr1 : EntryRow :=
  { id := "e2", transaction_id := "tx1", account_id := "a1",
    debit_amount := "0", credit_amount := "500.00", description := none,
    created_at := "t0" }

/-- An entry row with debit 1500.00 on account `a2`. -/
def rowDr2 : EntryRow :=
  { id := "e3", transaction_id := "tx1", account_id := "a2",
    debit_amount := "1500.00", credit_amount := "0", description := none,
    created_at := "t0" }

/-- An entry row with credit 500.00 on account `a2`. -/
def rowCr2 : EntryRow :=
  { id := "e4", transaction_id := "tx1", account_id := "a2",
    debit_amount := "0", credit_amount := "500.00", description := none,
    created_at := "t0" }

/-- The transaction row owning the fixture entries. -/
def txRow1 : TransactionRow :=
  { id := "tx1", reference := "TXN-1", description := "d",
    transaction_date := "t0", created_at := "t0", updated_at := "t0" }

/-- Store with the two accounts, each carrying debit total 1500.00 and
credit total 500.00. -/
def stBalances : DbState :=
  { accounts := [acctCash, acctSales],
    transactions := [txRow1],
    entries := [rowDr1, rowCr1, rowDr2, rowCr2] }

/-- An entry row of `tx1` whose account id matches no account row. -/
def rowGhost : EntryRow :=
  { id := "e9", transaction_id := "tx1", account_id := "ghost",
    debit_amount := "10", credit_amount := "0", description := none,
    created_at := "t0" }

/-- Store in which transaction `tx1` owns one resolvable entry and one
dangling entry. -/
def stDangling : DbState :=
  { accounts := [acctCash], transactions := [txRow1],
    entries := [rowDr1, rowGhost] }

/-- An entry row whose stored amounts are both corrupted text. -/
def rowBad : EntryRow :=
  { id := "e8", transaction_id := "tx1", account_id := "a1",
    debit_amount := "abc", credit_amount := "x1.2.3", description := none,
    created_at := "t0" }

/-- The by-id view of `tx1` in `stDangling`: only the resolvable entry
survives the join. -/
def viewDangling : TransactionWithEntries :=
  { id := "tx1", reference := "TXN-1", description := "d",
    transaction_date := "t0", created_at := "t0", updated_at := "t0",
    entries :=
      [{ id := "e1", transaction_id := "tx1", account_id := "a1",
         account_code := "A001", account_name := "Cash",
         debit_amount := ⟨150000, 2⟩, credit_amount := ⟨0, 0⟩,
         description := none, created_at := "t0" }] }

/-- Store holding only the cash account. -/
def stCashOnly : DbState :=
  { accounts := [acctCash], transactions := [], entries := [] }

/-- A balanced two-entry request over account `a1` (debit 100.00 and
credit 100.00). -/
def reqBalanced : CreateTransactionRequest :=
  { reference := "TXN-9", description := "sale",
    transaction_date := none,
    entries :=
      [{ account_id := "a1", debit_amount := some ⟨10000, 2⟩,
         credit_amount := none, description := none },
       { account_id := "a1", debit_amount := none,
         credit_amount := some ⟨10000, 2⟩, description := none }] }

/-- An unbalanced request (debit 100.00 against credit 50.00). -/
def reqUnbalanced : CreateTransactionRequest :=
  { reference := "TXN-9", description := "sale",
    transaction_date := none,
    entries :=
      [{ account_id := "a1", debit_amount := some ⟨10000, 2⟩,
         credit_amount := none, description := none },
       { account_id := "a1", debit_amount := none,
         credit_amount := some ⟨5000, 2⟩, description := none }] }

/-- A structurally valid request with zero entries. -/
def reqNoEntries : CreateTransactionRequest :=
  { reference := "TXN-9", description := "sale",
    transaction_date := none, entries := [] }

/-- A request with an empty reference and zero entries (structurally
invalid in its reference and empty in its entry list at once). -/
def reqEmptyRefNoEntries : CreateTransactionRequest :=
  { reference := "", description := "sale",
    transaction_date := none, entries := [] }

/-- A balanced request whose single entry names a missing account. -/
def reqMissingAccount : CreateTransactionRequest :=
  { reference := "TXN-9", description := "sale",
    transaction_date := none,
    entries :=
      [{ account_id := "ghost", debit_amount := none,
         credit_amount := none, description := none }] }

/-- A request whose entries all omit both amounts. -/
def reqBothAbsent : CreateTransactionRequest :=
  { reference := "TXN-9", description := "sale",
    transaction_date := none,
    entries :=
      [{ account_id := "a1", debit_amount := none,
         credit_amount := none, description := none },
       { account_id := "a1", debit_amount := none,
         credit_amount := none, description := none }] }

/-- A fixed id generator for entry rows in the fixtures. -/
def entryIdFix (i : Nat) : String := "en" ++ toString i

/-- The store produced by committing `reqBalanced` against `stCashOnly`
with transaction id `t1` and timestamp `now`. -/
def stAfterBalanced : DbState :=
  { accounts := [acctCash],
    transactions :=
      [{ id := "t1", reference := "TXN-9", description := "sale",
         transaction_date := "now", created_at := "now", updated_at := "now" }],
    entries :=
      [{ id := "en0", transaction_id := "t1", account_id := "a1",
         debit_amount := "100.00", credit_amount := "0", description := none,
         created_at := "now" },
       { id := "en1", transaction_id := "t1", account_id := "a1",
         debit_amount := "0", credit_amount := "100.00", description := none,
         created_at := "now" }] }

/-- The read-back view returned by that successful commit. -/
def viewBalanced : TransactionWithEntries :=
  { id := "t1", reference := "TXN-9", description := "sale",
    transaction_date := "now", created_at := "now", updated_at := "now",
    entries :=
      [{ id := "en0", transaction_id := "t1", account_id := "a1",
         account_code := "A001", account_name := "Cash",
         debit_amount := ⟨10000, 2⟩, credit_amount := ⟨0, 0⟩,
         description := none, created_at := "now" },
       { id := "en1", transaction_id := "t1", account_id := "a1",
         account_code := "A001", account_name := "Cash",
         debit_amount := ⟨0, 0⟩, credit_amount := ⟨10000, 2⟩,
         description := none, created_at := "now" }] }

/-! ## Helper lemmas -/

/-- Adding the zero decimal changes nothing (exactly). -/
theorem Dec.add_zero (a : Dec) : a.add Dec.zero = a := by
  rcases a with ⟨m, s⟩
  simp only [Dec.add, Dec.zero]
  split
  · next h =>
    have hs : s = 0 := Nat.le_zero.mp h
    subst hs
    simp
  · simp

/-- The totals fold of the balance calculator computes the debit and
credit sums independently. -/
theorem foldl_balanceStep_split (es : List EntryRow) (a b : Dec) :
    es.foldl balanceStep (a, b) =
      (es.foldl (fun d e => d.add ((parseDec e.debit_amount).getD Dec.zero)) a,
       es.foldl (fun c e => c.add ((parseDec e.credit_amount).getD Dec.zero)) b) := by
  induction es generalizing a b with
  | nil => rfl
  | cons e es ih => simpa [balanceStep] using ih _ _

/-- The zero decimal equals itself numerically. -/
theorem Dec.eqv_zero : Dec.eqv Dec.zero Dec.zero = true := by decide

/-- An entry insert can only fail with the foreign-key database
error. -/
theorem insertEntryRow_error (st : DbState) (row : EntryRow) (err : DieselError)
    (h : insertEntryRow st row = .error err) :
    err = .databaseError "FOREIGN KEY constraint failed" := by
  rw [insertEntryRow] at h
  split at h
  · cases h
  · injection h with h
    exact h.symm

/-- A successful entry insert appends the row and touches nothing
else. -/
theorem insertEntryRow_ok (st : DbState) (row : EntryRow) (st1 : DbState)
    (h : insertEntryRow st row = .ok st1) :
    st1.accounts = st.accounts ∧ st1.transactions = st.transactions ∧
      st1.entries = st.entries ++ [row] := by
  rw [insertEntryRow] at h
  split at h
  · injection h with h
    subst h
    exact ⟨rfl, rfl, rfl⟩
  · cases h

/-- A successful insert loop preserves the accounts and transactions
tables, and every entry row of the resulting state is either
pre-existing or one of the new rows of the committed transaction,
stamped with the commit timestamp. -/
theorem insertEntries_ok (transId : String) (eid : Nat → String) (now : String) :
    ∀ (es : List CreateEntryRequest) (st : DbState) (i : Nat) (st2 : DbState),
      insertEntries transId eid now st i es = .ok st2 →
      st2.accounts = st.accounts ∧ st2.transactions = st.transactions ∧
      ∀ r ∈ st2.entries,
        r ∈ st.entries ∨ (r.transaction_id = transId ∧ r.created_at = now) := by
  intro es
  induction es with
  | nil =>
    intro st i st2 h
    simp only [insertEntries] at h
    injection h with h
    subst h
    exact ⟨rfl, rfl, fun r hr => .inl hr⟩
  | cons e es ih =>
    intro st i st2 h
    simp only [insertEntries] at h
    cases hrow : insertEntryRow st (mkEntryRow transId (eid i) now e) with
    | error err =>
      rw [hrow] at h
      cases h
    | ok st1 =>
      rw [hrow] at h
      obtain ⟨ha1, ht1, hes1⟩ := insertEntryRow_ok _ _ _ hrow
      obtain ⟨ha2, ht2, hmem⟩ := ih st1 (i + 1) st2 h
      refine ⟨ha2.trans ha1, ht2.trans ht1, ?_⟩
      intro r hr
      rcases hmem r hr with hold | hnew
      · rw [hes1] at hold
        rcases List.mem_append.mp hold with h1 | h1
        · exact .inl h1
        · have hr2 : r = mkEntryRow transId (eid i) now e := by simpa using h1
          subst hr2
          exact .inr ⟨rfl, rfl⟩
      · exact .inr hnew

/-- A successful commit is exactly a successful insert loop over the
state holding the new transaction row. -/
theorem commitTransaction_ok (st : DbState) (req : CreateTransactionRequest)
    (tid : String) (eid : Nat → String) (now : String) (stc : DbState)
    (h : commitTransaction st req tid eid now = .ok stc) :
    insertEntries tid eid now
      { st with transactions := st.transactions ++ [mkTransactionRow req tid now] }
      0 req.entries = .ok stc := by
  rw [commitTransaction] at h
  split at h
  · cases h
  · next stx heq =>
    split at h
    · cases h
    · injection h with h
      subst h
      exact heq

/-- When some requested entry names an account absent from the store,
the insert loop fails with the foreign-key database error. -/
theorem insertEntries_missing (transId : String) (eid : Nat → String) (now : String) :
    ∀ (es : List CreateEntryRequest) (st : DbState) (i : Nat),
      (∃ e ∈ es, ∀ a ∈ st.accounts, a.id ≠ e.account_id) →
      insertEntries transId eid now st i es =
        .error (.databaseError "FOREIGN KEY constraint failed") := by
  intro es
  induction es with
  | nil =>
    rintro st i ⟨e, he, -⟩
    cases he
  | cons e0 es ih =>
    rintro st i ⟨e, he, hmiss⟩
    simp only [insertEntries]
    rcases List.mem_cons.mp he with rfl | hmem
    · have hany : (st.accounts.any (fun a => a.id == e.account_id)) = false := by
        refine List.any_eq_false.mpr ?_
        intro a ha
        simpa using hmiss a ha
      have hrow : insertEntryRow st (mkEntryRow transId (eid i) now e) =
          .error (.databaseError "FOREIGN KEY constraint failed") := by
        rw [insertEntryRow]
        have hc : (st.accounts.any
            (fun a => a.id == (mkEntryRow transId (eid i) now e).account_id)) = false := by
          simpa [mkEntryRow] using hany
        simp [hc]
      rw [hrow]
    · cases hrow : insertEntryRow st (mkEntryRow transId (eid i) now e0) with
      | error err =>
        have herr := insertEntryRow_error _ _ _ hrow
        subst herr
        rfl
      | ok st1 =>
        obtain ⟨ha1, -, -⟩ := insertEntryRow_ok _ _ _ hrow
        refine ih st1 (i + 1) ⟨e, hmem, ?_⟩
        rw [ha1]
        exact hmiss

/-! ## Claim theorems -/

/-- C1: if a submitted transaction is accepted, the sum of the debit
amounts of its entries equals the sum of the credit amounts (exact
decimal comparison); if the sums differ, the submission is rejected
with a Validation error and the state is unchanged. -/
theorem claim1_double_entry_invariant :
    ∀ (st : DbState) (req : CreateTransactionRequest) (tid : String)
      (eid : Nat → String) (now : String),
      (∀ v, (createTransaction st req tid eid now).2 = .ok v →
         ((balanceTotals req.entries).1.eqv (balanceTotals req.entries).2) = true) ∧
      (((balanceTotals req.entries).1.eqv (balanceTotals req.entries).2) = false →
         ∃ msg, createTransaction st req tid eid now =
           (st, .error (.validationError msg))) := by
  intro st req tid eid now
  cases hv : validateStructural req with
  | some msg =>
    refine ⟨?_, ?_⟩
    · intro v hok
      simp [createTransaction, hv] at hok
    · intro _
      exact ⟨msg, by simp [createTransaction, hv]⟩
  | none =>
    cases hb : (balanceTotals req.entries).1.eqv (balanceTotals req.entries).2 with
    | false =>
      refine ⟨?_, ?_⟩
      · intro v hok
        simp [createTransaction, hv, hb] at hok
      · intro _
        refine ⟨"Total debits must equal total credits", ?_⟩
        simp [createTransaction, hv, hb]
    | true =>
      exact ⟨fun v _ => rfl, fun hc => by simp at hc⟩

/-- C1 witness: the concrete unbalanced request (debit 100.00 against
credit 50.00) is rejected with a Validation error and leaves the store
unchanged. -/
theorem claim1_witness :
    ((balanceTotals reqUnbalanced.entries).1.eqv
        (balanceTotals reqUnbalanced.entries).2) = false ∧
    ∃ msg, createTransaction stCashOnly reqUnbalanced "t1" entryIdFix "now" =
        (stCashOnly, .error (.validationError msg)) :=
  ⟨by decide,
   (claim1_double_entry_invariant stCashOnly reqUnbalanced "t1" entryIdFix "now").2
     (by decide)⟩

/-- C3 (amended): the error returned by submission equals that of the
first failing step of the pipeline structural check, entry-list
non-empty check, balance check; and every structurally valid submission
with zero entries is rejected with the at-least-one-entry Validation
error. -/
theorem claim3_validation_order :
    ∀ (st : DbState) (req : CreateTransactionRequest) (tid : String)
      (eid : Nat → String) (now : String),
      (∀ e, specOrderValidation req = some e →
         createTransaction st req tid eid now = (st, .error e)) ∧
      (validateStructural req = none → req.entries = [] →
         createTransaction st req tid eid now =
           (st, .error (.validationError "Transaction must have at least one entry"))) := by
  intro st req tid eid now
  have hre : validateStructural req = none → req.entries = [] →
      createTransaction st req tid eid now =
        (st, .error (.validationError "Transaction must have at least one entry")) := by
    intro hv hnil
    simp [createTransaction, hv, hnil, balanceTotals, Dec.eqv_zero]
  refine ⟨?_, hre⟩
  intro e he
  cases hv : validateStructural req with
  | some msg =>
    simp only [specOrderValidation, hv] at he
    injection he with he
    subst he
    simp [createTransaction, hv]
  | none =>
    cases hemp : req.entries.isEmpty with
    | true =>
      have hnil : req.entries = [] := by
        cases hval : req.entries with
        | nil => rfl
        | cons a as => rw [hval] at hemp; simp at hemp
      simp only [specOrderValidation, hv, hemp, if_true] at he
      injection he with he
      subst he
      exact hre hv hnil
    | false =>
      cases hb : (balanceTotals req.entries).1.eqv (balanceTotals req.entries).2 with
      | true =>
        simp [specOrderValidation, hv, hemp, hb] at he
      | false =>
        simp only [specOrderValidation, hv, hemp, hb] at he
        simp at he
        subst he
        simp [createTransaction, hv, hb]

/-- C4: deleting a nonexistent transaction fails with NotFound and
leaves the state unchanged; deleting an existing transaction succeeds,
removes the transaction and all of its entries (scanning entries by
that transaction id afterwards yields an empty result), and touches no
account rows. -/
theorem claim4_delete_transaction :
    ∀ (st : DbState) (transId : String),
      ((∀ t ∈ st.transactions, t.id ≠ transId) →
         deleteTransaction st transId =
           (st, .error (.notFound "Transaction not found"))) ∧
      ((∃ t ∈ st.transactions, t.id = transId) →
         (deleteTransaction st transId).2 = .ok "Transaction deleted successfully" ∧
         (∀ t ∈ (deleteTransaction st transId).1.transactions, t.id ≠ transId) ∧
         (deleteTransaction st transId).1.entries.filter
             (fun e => e.transaction_id == transId) = [] ∧
         (deleteTransaction st transId).1.accounts = st.accounts) := by
  intro st transId
  constructor
  · intro h
    have hfil : st.transactions.filter (fun t => t.id == transId) = [] := by
      refine List.filter_eq_nil_iff.mpr ?_
      intro t ht
      simpa using h t ht
    simp [deleteTransaction, hfil]
  · rintro ⟨t0, ht0, hid⟩
    have hne : (st.transactions.filter (fun t => t.id == transId)).length ≠ 0 := by
      intro hlen
      have hnil := List.length_eq_zero.mp hlen
      have := List.filter_eq_nil_iff.mp hnil t0 ht0
      simp [hid] at this
    have hcond : ((st.transactions.filter (fun t => t.id == transId)).length == 0) = false :=
      beq_eq_false_iff_ne.mpr hne
    refine ⟨by simp [deleteTransaction, hcond], ?_, ?_, by simp [deleteTransaction, hcond]⟩
    · intro t ht
      rw [deleteTransaction] at ht
      simp only [hcond] at ht
      simp only [Bool.false_eq_true, if_false] at ht
      have := (List.mem_filter.mp ht).2
      simpa using this
    · rw [deleteTransaction]
      simp only [hcond, Bool.false_eq_true, if_false]
      refine List.filter_eq_nil_iff.mpr ?_
      intro e he
      have := (List.mem_filter.mp he).2
      simpa using this

/-- C4 witness: in `stBalances` deleting the missing id `nope` gives
NotFound and changes nothing, while deleting `tx1` removes it together
with its four entries. -/
theorem claim4_witness :
    deleteTransaction stBalances "nope" =
      (stBalances, .error (.notFound "Transaction not found")) ∧
    (deleteTransaction stBalances "tx1").2 = .ok "Transaction deleted successfully" ∧
    (deleteTransaction stBalances "tx1").1.entries.filter
        (fun e => e.transaction_id == "tx1") = [] :=
  ⟨(claim4_delete_transaction stBalances "nope").1 (by decide),
   ((claim4_delete_transaction stBalances "tx1").2 ⟨txRow1, by decide, rfl⟩).1,
   ((claim4_delete_transaction stBalances "tx1").2 ⟨txRow1, by decide, rfl⟩).2.2.1⟩

/-- C5 (amended): submitting a transaction in which some entry names a
nonexistent account fails and persists nothing, but the failure is
classified as a generic DatabaseError (storage error), not as NotFound
or ValidationError. -/
theorem claim5_missing_account_storage_error :
    ∀ (st : DbState) (req : CreateTransactionRequest) (tid : String)
      (eid : Nat → String) (now : String),
      validateStructural req = none →
      ((balanceTotals req.entries).1.eqv (balanceTotals req.entries).2) = true →
      req.entries.isEmpty = false →
      (∃ e ∈ req.entries, ∀ a ∈ st.accounts, a.id ≠ e.account_id) →
      createTransaction st req tid eid now =
        (st, .error (.databaseError "FOREIGN KEY constraint failed")) := by
  intro st req tid eid now hv hb hemp hmiss
  have hmiss1 : ∃ e ∈ req.entries,
      ∀ a ∈ (DbState.accounts
        { st with transactions := st.transactions ++ [mkTransactionRow req tid now] }),
        a.id ≠ e.account_id := hmiss
  have hins := insertEntries_missing tid eid now req.entries
      { st with transactions := st.transactions ++ [mkTransactionRow req tid now] } 0 hmiss1
  have hcommit : commitTransaction st req tid eid now =
      .error (.databaseError "FOREIGN KEY constraint failed") := by
    rw [commitTransaction]
    rw [hins]
  simp [createTransaction, hv, hb, hemp, hcommit, appErrorOfDiesel]

/-- C5 counterexample: a balanced, structurally valid submission whose
entry references the missing account `ghost` is rejected with a
DatabaseError, which is neither a NotFound nor a ValidationError,
refuting the claimed classification. -/
theorem claim5_counterexample :
    (createTransaction stCashOnly reqMissingAccount "t1" entryIdFix "now").2 =
        .error (.databaseError "FOREIGN KEY constraint failed") ∧
    (∀ msg, AppError.databaseError "FOREIGN KEY constraint failed" ≠ .notFound msg) ∧
    (∀ msg, AppError.databaseError "FOREIGN KEY constraint failed" ≠ .validationError msg) :=
  ⟨by decide, fun msg h => AppError.noConfusion h, fun msg h => AppError.noConfusion h⟩

/-- C5 witness: the concrete missing-account submission leaves the
store unchanged and fails with the foreign-key DatabaseError. -/
theorem claim5_witness :
    createTransaction stCashOnly reqMissingAccount "t1" entryIdFix "now" =
      (stCashOnly, .error (.databaseError "FOREIGN KEY constraint failed")) :=
  claim5_missing_account_storage_error stCashOnly reqMissingAccount "t1" entryIdFix "now"
    (by decide) (by decide) (by decide)
    ⟨{ account_id := "ghost", debit_amount := none, credit_amount := none,
       description := none }, by decide, by decide⟩

/-- C8: on a successfully committed transaction (fresh generated id),
the one commit timestamp `now` is shared: the created transaction row
has `created_at` and `updated_at` equal to `now`, and every entry row
of that transaction has `created_at` equal to `now`. -/
theorem claim8_shared_timestamp :
    ∀ (st : DbState) (req : CreateTransactionRequest) (tid : String)
      (eid : Nat → String) (now : String) (st2 : DbState)
      (v : TransactionWithEntries),
      createTransaction st req tid eid now = (st2, .ok v) →
      (∀ t ∈ st.transactions, t.id ≠ tid) →
      (∀ e ∈ st.entries, e.transaction_id ≠ tid) →
      (∃ t ∈ st2.transactions, t.id = tid ∧ t.created_at = now ∧ t.updated_at = now) ∧
      (∀ t ∈ st2.transactions, t.id = tid → t.created_at = now ∧ t.updated_at = now) ∧
      (∀ e ∈ st2.entries, e.transaction_id = tid → e.created_at = now) := by
  intro st req tid eid now st2 v h hfresht hfreshe
  simp only [createTransaction] at h
  cases hv : validateStructural req with
  | some msg =>
    simp [hv] at h
  | none =>
    simp only [hv] at h
    cases hb : (balanceTotals req.entries).1.eqv (balanceTotals req.entries).2 with
    | false => simp [hb] at h
    | true =>
      simp only [hb, if_true] at h
      cases hemp : req.entries.isEmpty with
      | true => simp [hemp] at h
      | false =>
        simp only [hemp, Bool.false_eq_true, if_false] at h
        cases hcom : commitTransaction st req tid eid now with
        | error err => simp [hcom] at h
        | ok stc =>
          simp only [hcom] at h
          cases hview : getTransactionWithEntries stc req.reference with
          | error e => simp [hview] at h
          | ok vr =>
            simp only [hview] at h
            have hst : stc = st2 := congrArg Prod.fst h
            subst hst
            have hins := commitTransaction_ok st req tid eid now stc hcom
            obtain ⟨hacc, htrans, hmem⟩ := insertEntries_ok tid eid now req.entries _ 0 _ hins
            have htr : stc.transactions =
                st.transactions ++ [mkTransactionRow req tid now] := htrans
            refine ⟨?_, ?_, ?_⟩
            · refine ⟨mkTransactionRow req tid now, ?_, rfl, rfl, rfl⟩
              rw [htr]
              exact List.mem_append.mpr (.inr (by simp))
            · intro t ht htid
              rw [htr] at ht
              rcases List.mem_append.mp ht with h1 | h1
              · exact absurd htid (hfresht t h1)
              · have ht2 : t = mkTransactionRow req tid now := by simpa using h1
                subst ht2
                exact ⟨rfl, rfl⟩
            · intro e he htid
              rcases hmem e he with hold | hnew
              · exact absurd htid (hfreshe e hold)
              · exact hnew.2

/-- C8 witness: committing the balanced fixture request against the
store with only the cash account succeeds, and the persisted
transaction and entry rows all carry the commit timestamp `now`. -/
theorem claim8_witness :
    createTransaction stCashOnly reqBalanced "t1" entryIdFix "now" =
        (stAfterBalanced, .ok viewBalanced) ∧
    (∃ t ∈ stAfterBalanced.transactions,
        t.id = "t1" ∧ t.created_at = "now" ∧ t.updated_at = "now") ∧
    (∀ e ∈ stAfterBalanced.entries, e.transaction_id = "t1" → e.created_at = "now") :=
  have hpair : createTransaction stCashOnly reqBalanced "t1" entryIdFix "now" =
      (stAfterBalanced, .ok viewBalanced) := by decide
  ⟨hpair,
   (claim8_shared_timestamp stCashOnly reqBalanced "t1" entryIdFix "now"
      stAfterBalanced viewBalanced hpair (by decide) (by decide)).1,
   (claim8_shared_timestamp stCashOnly reqBalanced "t1" entryIdFix "now"
      stAfterBalanced viewBalanced hpair (by decide) (by decide)).2.2⟩

/-- C9: an absent debit or credit amount is treated as exactly zero:
an entry with both amounts absent contributes zero to both totals of
the balance check, its persisted row stores debit and credit amounts
equal to zero, and a request all of whose entries omit both amounts
has totals (0, 0) and so passes the balance check. -/
theorem claim9_absent_amounts_zero :
    (∀ (e : CreateEntryRequest) (es : List CreateEntryRequest),
       e.debit_amount = none → e.credit_amount = none →
       balanceTotals (e :: es) = balanceTotals es) ∧
    (∀ (tid eid now : String) (e : CreateEntryRequest),
       (e.debit_amount = none → (mkEntryRow tid eid now e).debit_amount = "0") ∧
       (e.credit_amount = none → (mkEntryRow tid eid now e).credit_amount = "0")) ∧
    (∀ es : List CreateEntryRequest,
       (∀ e ∈ es, e.debit_amount = none ∧ e.credit_amount = none) →
       balanceTotals es = (Dec.zero, Dec.zero) ∧
       ((balanceTotals es).1.eqv (balanceTotals es).2) = true) := by
  have aux : ∀ (es : List CreateEntryRequest) (t : Dec × Dec),
      (∀ e ∈ es, e.debit_amount = none ∧ e.credit_amount = none) →
      es.foldl
        (fun t e =>
          (match e.debit_amount with
           | some d => t.1.add d
           | none => t.1,
           match e.credit_amount with
           | some c => t.2.add c
           | none => t.2)) t = t := by
    intro es
    induction es with
    | nil => intro t _; rfl
    | cons e es ih =>
      intro t hall
      obtain ⟨hd, hc⟩ := hall e (by simp)
      rw [List.foldl_cons]
      simp only [hd, hc]
      exact ih t fun e2 he2 => hall e2 (List.mem_cons_of_mem _ he2)
  refine ⟨?_, ?_, ?_⟩
  · intro e es hd hc
    rw [balanceTotals, balanceTotals, List.foldl_cons]
    simp only [hd, hc]
  · intro tid eid now e
    constructor
    · intro hd
      simp only [mkEntryRow, hd, Option.getD]
      decide
    · intro hc
      simp only [mkEntryRow, hc, Option.getD]
      decide
  · intro es hall
    have h1 : balanceTotals es = (Dec.zero, Dec.zero) := by
      rw [balanceTotals]
      exact aux es (Dec.zero, Dec.zero) hall
    refine ⟨h1, ?_⟩
    rw [h1]
    exact Dec.eqv_zero

/-- C9 witness: the two-entry request omitting every amount has totals
(0, 0), passes the balance check, and its persisted rows store both
amounts as "0". -/
theorem claim9_witness :
    balanceTotals reqBothAbsent.entries = (Dec.zero, Dec.zero) ∧
    ((balanceTotals reqBothAbsent.entries).1.eqv
        (balanceTotals reqBothAbsent.entries).2) = true ∧
    (mkEntryRow "t1" "en0" "now"
        { account_id := "a1", debit_amount := none, credit_amount := none,
          description := none }).debit_amount = "0" ∧
    (mkEntryRow "t1" "en0" "now"
        { account_id := "a1", debit_amount := none, credit_amount := none,
          description := none }).credit_amount = "0" :=
  ⟨(claim9_absent_amounts_zero.2.2 reqBothAbsent.entries (by decide)).1,
   (claim9_absent_amounts_zero.2.2 reqBothAbsent.entries (by decide)).2,
   (claim9_absent_amounts_zero.2.1 "t1" "en0" "now" _).1 rfl,
   (claim9_absent_amounts_zero.2.1 "t1" "en0" "now" _).2 rfl⟩

/-- C7: a stored amount string that does not parse as a decimal is
treated as exactly zero by every reader: it leaves the debit or credit
total of the balance scan unchanged, and the read-back view maps it to
the zero decimal. -/
theorem claim7_unparsable_amount_is_zero :
    ∀ (t : Dec × Dec) (e : EntryRow) (a : AccountRow),
      (parseDec e.debit_amount = none →
         (balanceStep t e).1 = t.1 ∧ (entryWithAccountOf e a).debit_amount = Dec.zero) ∧
      (parseDec e.credit_amount = none →
         (balanceStep t e).2 = t.2 ∧ (entryWithAccountOf e a).credit_amount = Dec.zero) := by
  intro t e a
  constructor
  · intro h
    exact ⟨by simp [balanceStep, h, Dec.add_zero], by simp [entryWithAccountOf, h]⟩
  · intro h
    exact ⟨by simp [balanceStep, h, Dec.add_zero], by simp [entryWithAccountOf, h]⟩

/-- C7 witness: the corrupted row with amounts "abc" and "x1.2.3" (both
unparseable) contributes nothing to concrete totals and reads back as
zero in the joined view. -/
theorem claim7_witness :
    parseDec "abc" = none ∧ parseDec "x1.2.3" = none ∧
    (balanceStep (⟨5, 0⟩, ⟨7, 0⟩) rowBad).1 = ⟨5, 0⟩ ∧
    (balanceStep (⟨5, 0⟩, ⟨7, 0⟩) rowBad).2 = ⟨7, 0⟩ ∧
    (entryWithAccountOf rowBad acctCash).debit_amount = Dec.zero ∧
    (entryWithAccountOf rowBad acctCash).credit_amount = Dec.zero :=
  ⟨by decide, by decide,
   ((claim7_unparsable_amount_is_zero (⟨5, 0⟩, ⟨7, 0⟩) rowBad acctCash).1 (by decide)).1,
   ((claim7_unparsable_amount_is_zero (⟨5, 0⟩, ⟨7, 0⟩) rowBad acctCash).2 (by decide)).1,
   ((claim7_unparsable_amount_is_zero (⟨5, 0⟩, ⟨7, 0⟩) rowBad acctCash).1 (by decide)).2,
   ((claim7_unparsable_amount_is_zero (⟨5, 0⟩, ⟨7, 0⟩) rowBad acctCash).2 (by decide)).2⟩

/-- C6 (amended): the serde deserialization boundary does treat the
account type as a closed five-value set and rejects anything else, but
the internal string-to-AccountType conversion of `src/models.rs` never
errors: it silently coerces every unrecognized string to Asset. -/
theorem claim6_account_type_closed_set :
    (∀ (s : String) (t : AccountType),
       accountTypeDeserialize s = some t → s = stringFromAccountType t) ∧
    (∀ t : AccountType, accountTypeDeserialize (stringFromAccountType t) = some t) ∧
    (∀ s : String, accountTypeDeserialize s = none →
       s ≠ "asset" ∧ s ≠ "liability" ∧ s ≠ "equity" ∧ s ≠ "revenue" ∧ s ≠ "expense" ∧
       accountTypeFromString s = .asset) := by
  refine ⟨?_, ?_, ?_⟩
  · intro s t h
    simp only [accountTypeDeserialize] at h
    split_ifs at h with h1 h2 h3 h4 h5 <;>
      (injection h with h; subst h; simp_all [stringFromAccountType])
  · intro t
    cases t <;> decide
  · intro s h
    simp only [accountTypeDeserialize] at h
    split_ifs at h with h1 h2 h3 h4 h5
    exact ⟨h1, h2, h3, h4, h5,
      by simp [accountTypeFromString, h1, h2, h3, h4, h5]⟩

/-- C6 counterexample: the string "invalid" is outside the closed set,
yet the `From<String>` conversion does not reject it: it silently
coerces it to Asset (as the repository test suite itself asserts). -/
theorem claim6_counterexample :
    accountTypeFromString "invalid" = AccountType.asset ∧
    accountTypeDeserialize "invalid" = none := by
  exact ⟨by decide, by decide⟩

/-- C6 witness: instantiating the closed-set theorem at "invalid" shows
the deserializer rejects it while the internal conversion coerces it to
Asset. -/
theorem claim6_witness :
    "invalid" ≠ "asset" ∧ accountTypeFromString "invalid" = AccountType.asset :=
  ⟨(claim6_account_type_closed_set.2.2 "invalid" (by decide)).1,
   (claim6_account_type_closed_set.2.2 "invalid" (by decide)).2.2.2.2.2⟩

/-- The ids surviving the join are exactly the ids of the entries of
the transaction whose account id resolves to some account row. -/
theorem joinedEntries_ids (st : DbState) (transId : String) :
    (joinedEntries st transId).map (fun x => x.id) =
      ((st.entries.filter (fun e => e.transaction_id == transId)).filter
         (fun e => st.accounts.any (fun a => a.id == e.account_id))).map
        (fun e => e.id) := by
  rw [joinedEntries]
  generalize st.entries.filter (fun e => e.transaction_id == transId) = l
  induction l with
  | nil => rfl
  | cons e l ih =>
    cases hf : st.accounts.find? (fun a => a.id == e.account_id) with
    | none =>
      have hany : st.accounts.any (fun a => a.id == e.account_id) = false := by
        refine List.any_eq_false.mpr ?_
        intro a ha
        simpa using List.find?_eq_none.mp hf a ha
      simp [List.filterMap_cons, List.filter_cons, hf, hany, ih]
    | some a =>
      have hpa := List.find?_some hf
      have hany : st.accounts.any (fun a => a.id == e.account_id) = true :=
        List.any_eq_true.mpr ⟨a, List.mem_of_find?_eq_some hf, hpa⟩
      simp [List.filterMap_cons, List.filter_cons, hf, hany, ih, entryWithAccountOf]

/-- C10: in both read-back views, an entry whose account id matches no
account row is silently omitted (inner join): the returned entry ids
are exactly those of the entries of the transaction that do resolve to
an account, the lookup does not error because of a dangling entry, and
every returned entry carries an existing account. -/
theorem claim10_inner_join_omits_dangling :
    (∀ (st : DbState) (transId : String) (v : TransactionWithEntries),
       getTransactionWithEntriesById st transId = .ok v →
       v.entries.map (fun x => x.id) =
         ((st.entries.filter (fun e => e.transaction_id == transId)).filter
            (fun e => st.accounts.any (fun a => a.id == e.account_id))).map
           (fun e => e.id)) ∧
    (∀ (st : DbState) (refId : String) (v : TransactionWithEntries),
       getTransactionWithEntries st refId = .ok v →
       v.entries.map (fun x => x.id) =
         ((st.entries.filter (fun e => e.transaction_id == v.id)).filter
            (fun e => st.accounts.any (fun a => a.id == e.account_id))).map
           (fun e => e.id)) ∧
    (∀ (st : DbState) (transId : String) (v : TransactionWithEntries)
       (x : EntryWithAccount),
       getTransactionWithEntriesById st transId = .ok v → x ∈ v.entries →
       ∃ a ∈ st.accounts, a.id = x.account_id) := by
  have hmem : ∀ (st : DbState) (transId : String) (x : EntryWithAccount),
      x ∈ joinedEntries st transId → ∃ a ∈ st.accounts, a.id = x.account_id := by
    intro st transId x hx
    rw [joinedEntries] at hx
    obtain ⟨e, -, hfe⟩ := List.mem_filterMap.mp hx
    obtain ⟨a, hfind, hxe⟩ := Option.map_eq_some'.mp hfe
    refine ⟨a, List.mem_of_find?_eq_some hfind, ?_⟩
    have hba := List.find?_some hfind
    have hax : x.account_id = e.account_id := by rw [← hxe]; rfl
    rw [hax]
    exact beq_iff_eq.mp hba
  refine ⟨?_, ?_, ?_⟩
  · intro st transId v h
    rw [getTransactionWithEntriesById] at h
    cases hfind : st.transactions.find? (fun t => t.id == transId) with
    | none => rw [hfind] at h; cases h
    | some t =>
      rw [hfind] at h
      injection h with h
      rw [← h]
      exact joinedEntries_ids st transId
  · intro st refId v h
    rw [getTransactionWithEntries] at h
    cases hfind : st.transactions.find? (fun t => t.reference == refId) with
    | none => rw [hfind] at h; cases h
    | some t =>
      rw [hfind] at h
      injection h with h
      rw [← h]
      exact joinedEntries_ids st t.id
  · intro st transId v x h hx
    rw [getTransactionWithEntriesById] at h
    cases hfind : st.transactions.find? (fun t => t.id == transId) with
    | none => rw [hfind] at h; cases h
    | some t =>
      rw [hfind] at h
      injection h with h
      rw [← h] at hx
      exact hmem st transId x hx

/-- C10 witness: in the store with a dangling entry `e9` (account
`ghost`), the by-id view of `tx1` returns only the resolvable entry
`e1`, silently omitting `e9`. -/
theorem claim10_witness :
    getTransactionWithEntriesById stDangling "tx1" = .ok viewDangling ∧
    viewDangling.entries.map (fun x => x.id) =
      ((stDangling.entries.filter (fun e => e.transaction_id == "tx1")).filter
         (fun e => stDangling.accounts.any (fun a => a.id == e.account_id))).map
        (fun e => e.id) ∧
    viewDangling.entries.map (fun x => x.id) = ["e1"] :=
  ⟨by decide,
   claim10_inner_join_omits_dangling.1 stDangling "tx1" viewDangling (by decide),
   by decide⟩

/-- C3 counterexample: a submission with zero entries and an empty
reference is rejected with the structural Validation error, not with
the at-least-one-entry Validation error, refuting the claim that every
zero-entry submission gets the at-least-one-entry error. -/
theorem claim3_counterexample :
    reqEmptyRefNoEntries.entries = [] ∧
    (createTransaction stCashOnly reqEmptyRefNoEntries "t1" entryIdFix "now").2 =
        .error (.validationError "Validation failed: reference") ∧
    (createTransaction stCashOnly reqEmptyRefNoEntries "t1" entryIdFix "now").2 ≠
        .error (.validationError "Transaction must have at least one entry") :=
  ⟨rfl, by decide, by decide⟩

/-- C3 witness: a structurally valid zero-entry submission is rejected
with the at-least-one-entry Validation error, and the first-failing-step
pipeline agrees with the handler on it. -/
theorem claim3_witness :
    createTransaction stCashOnly reqNoEntries "t1" entryIdFix "now" =
      (stCashOnly, .error (.validationError "Transaction must have at least one entry")) :=
  (claim3_validation_order stCashOnly reqNoEntries "t1" entryIdFix "now").2
    (by decide) rfl


/-- C2: `balanceOf` (get_account_balance) and `balancesOf`
(get_balances) sum the debit and credit amounts of the entries of the
account independently starting at zero, and return debits − credits for
Asset and Expense accounts, credits − debits for Liability, Equity and
Revenue accounts, and debits − credits for any unrecognized account
type. -/
theorem claim2_balance_sign_convention :
    (∀ (st : DbState) (account : AccountRow),
       (accountBalanceOf st account).debit_total =
           specDebitTotal (st.entries.filter (fun e => e.account_id == account.id)) ∧
       (accountBalanceOf st account).credit_total =
           specCreditTotal (st.entries.filter (fun e => e.account_id == account.id)) ∧
       (accountBalanceOf st account).balance =
           specSignedBalance account.account_type
             (accountBalanceOf st account).debit_total
             (accountBalanceOf st account).credit_total) ∧
    (∀ (st : DbState) (accId : String) (account : AccountRow),
       st.accounts.find? (fun a => a.id == accId) = some account →
       getAccountBalance st accId = .ok (accountBalanceOf st account)) ∧
    (∀ (st : DbState) (filt : Option String) (b : AccountBalance),
       b ∈ getBalances st filt → ∃ a ∈ st.accounts, b = accountBalanceOf st a) := by
  refine ⟨?_, ?_, ?_⟩
  · intro st account
    have hsplit := foldl_balanceStep_split
        (st.entries.filter (fun e => e.account_id == account.id)) Dec.zero Dec.zero
    refine ⟨?_, ?_, ?_⟩ <;>
      simp [accountBalanceOf, hsplit, specDebitTotal, specCreditTotal, specSignedBalance]
  · intro st accId account h
    simp [getAccountBalance, h]
  · intro st filt b hb
    cases filt with
    | none =>
      simp [getBalances] at hb
      obtain ⟨a, ha, rfl⟩ := hb
      exact ⟨a, ha, rfl⟩
    | some f =>
      simp [getBalances] at hb
      obtain ⟨a, ⟨ha, _⟩, rfl⟩ := hb
      exact ⟨a, ha, rfl⟩

/-- C2 witness: in `stBalances` the asset account `a1` has debit total
1500.00, credit total 500.00 and balance 1000.00, and the revenue
account `a2` with the same totals has balance −1000.00. -/
theorem claim2_witness :
    getAccountBalance stBalances "a1" = .ok (accountBalanceOf stBalances acctCash) ∧
    (accountBalanceOf stBalances acctCash).debit_total = ⟨150000, 2⟩ ∧
    (accountBalanceOf stBalances acctCash).credit_total = ⟨50000, 2⟩ ∧
    (accountBalanceOf stBalances acctCash).balance = ⟨100000, 2⟩ ∧
    getAccountBalance stBalances "a2" = .ok (accountBalanceOf stBalances acctSales) ∧
    (accountBalanceOf stBalances acctSales).balance = ⟨-100000, 2⟩ :=
  ⟨claim2_balance_sign_convention.2.1 stBalances "a1" acctCash (by decide),
   by decide, by decide, by decide,
   claim2_balance_sign_convention.2.1 stBalances "a2" acctSales (by decide),
   by decide⟩




